import Mathlib

/-!
Verification of the Pushpin proxy worker core (app.cpp, controlrequest.cpp,
updater.cpp) against its natural-language specification. Shallow embedding:
QString becomes String, QStringList becomes List String, C ints become Int
(or Nat where the source value is a count), QVariant becomes an inductive
Variant type, and the supervisor/worker interaction is modelled as explicit
state passing.
-/

namespace Pushpin

/-! ## trimlist (app.cpp lines 48-58)

The C++ loop walks the list by index; when entry n is empty it calls
removeAt(n) and decrements n to compensate. We embed the loop verbatim as
index-based recursion over the list. -/

def trimlistLoop (l : List String) (n : Nat) : List String :=
  if h : n < l.length then
    if l[n].isEmpty then
      trimlistLoop (l.eraseIdx n) n
    else
      trimlistLoop l (n + 1)
  else
    l
termination_by l.length - n
decreasing_by
  · rw [List.length_eraseIdx]
    simp only [h, if_pos]
    omega
  · omega

def trimlist (l : List String) : List String :=
  trimlistLoop l 0

/-! ## suffixSpec / suffixSpecs (app.cpp lines 80-94) -/

/-- QString::startsWith, modelled on the character sequence. -/
def qstartsWith (s pre : String) : Bool :=
  pre.data.isPrefixOf s.data

def suffixSpec (s : String) (i : Nat) : String :=
  if qstartsWith s "ipc:" then s ++ "-" ++ toString i
  else s

def suffixSpecs (l : List String) (i : Nat) : List String :=
  if l.length = 1 ∧ qstartsWith l.headI "ipc:" then [l.headI ++ "-" ++ toString i]
  else l

/-! ## trimlist correctness lemmas -/

theorem trimlistLoop_eq_append (l : List String) (n : Nat) :
    trimlistLoop l n = l.take n ++ (l.drop n).filter (fun s => !s.isEmpty) := by
  by_cases h : n < l.length
  · have hlen : (l.take n).length = n := by
      rw [List.length_take]
      omega
    have hdn : l.drop n = l[n] :: l.drop (n + 1) := List.drop_eq_getElem_cons h
    by_cases he : l[n].isEmpty
    · have h1 : (l.eraseIdx n).take n = l.take n := by
        rw [List.eraseIdx_eq_take_drop_succ, List.take_append_of_le_length (le_of_eq hlen.symm),
          List.take_take, min_self]
      have h2 : (l.eraseIdx n).drop n = l.drop (n + 1) := by
        rw [List.eraseIdx_eq_take_drop_succ, List.drop_append_of_le_length (le_of_eq hlen.symm),
          List.drop_of_length_le (le_of_eq hlen), List.nil_append]
      rw [trimlistLoop, dif_pos h, if_pos he]
      rw [trimlistLoop_eq_append (l.eraseIdx n) n, h1, h2, hdn, List.filter_cons]
      simp [he]
    · have htn : l.take (n + 1) = l.take n ++ [l[n]] := by
        rw [List.take_succ]
        simp [List.getElem?_eq_getElem h]
      rw [trimlistLoop, dif_pos h, if_neg he]
      rw [trimlistLoop_eq_append l (n + 1), hdn, List.filter_cons]
      simp only [he, Bool.not_false, if_pos]
      rw [htn, List.append_assoc, List.singleton_append]
  · rw [trimlistLoop, dif_neg h]
    rw [List.take_of_length_le (by omega), List.drop_of_length_le (by omega)]
    simp
termination_by l.length - n
decreasing_by
  · rw [List.length_eraseIdx]
    simp only [h, if_pos]
    omega
  · omega

theorem trimlist_eq_filter (l : List String) :
    trimlist l = l.filter (fun s => !s.isEmpty) := by
  rw [trimlist, trimlistLoop_eq_append]
  simp

/-! ## Engine configuration (the fields touched by App::Private::run and
App::Private::runLoop, app.cpp lines 580-644 and 719-739) -/

structure EngineConfiguration where
  id : Nat
  clientId : String
  inspectSpec : String
  acceptSpec : String
  retryInSpec : String
  wsControlInitSpecs : List String
  wsControlStreamSpecs : List String
  statsSpec : String
  commandSpec : String
  intServerInSpecs : List String
  intServerInStreamSpecs : List String
  intServerOutSpecs : List String
  sessionsMax : Int
  deriving Repr, DecidableEq

/-- Per-worker specialization of the engine configuration
(app.cpp lines 719-739): id is set to the worker index, and only in
multi-worker mode the client id and the handler/stats/command/intreq
endpoint specs are suffixed. -/
def workerConfig (config : EngineConfiguration) (workerCount n : Nat) : EngineConfiguration :=
  let wconfig := { config with id := n }
  if workerCount > 1 then
    { wconfig with
      clientId := wconfig.clientId ++ "-" ++ toString n
      inspectSpec := suffixSpec wconfig.inspectSpec n
      acceptSpec := suffixSpec wconfig.acceptSpec n
      retryInSpec := suffixSpec wconfig.retryInSpec n
      wsControlInitSpecs := suffixSpecs wconfig.wsControlInitSpecs n
      wsControlStreamSpecs := suffixSpecs wconfig.wsControlStreamSpecs n
      statsSpec := suffixSpec wconfig.statsSpec n
      commandSpec := suffixSpec wconfig.commandSpec n
      intServerInSpecs := suffixSpecs wconfig.intServerInSpecs n
      intServerInStreamSpecs := suffixSpecs wconfig.intServerInStreamSpecs n
      intServerOutSpecs := suffixSpecs wconfig.intServerOutSpecs n }
  else
    wconfig

/-! ## Session limits (app.cpp lines 519, 541, 574-578, 618) -/

/-- Default of settings.value with key proxy/max_open_requests (line 519). -/
def maxOpenRequestsDefault : Int := -1

/-- Default of settings.value with key runner/client_maxconn (line 541). -/
def clientMaxconnDefault : Int := 50000

/-- The clamp at app.cpp lines 574-578: sessionsMax should not exceed
clientMaxconn. -/
def effectiveSessionsMax (maxOpenRequests clientMaxconn : Int) : Int :=
  if maxOpenRequests ≥ 0 then min maxOpenRequests clientMaxconn
  else clientMaxconn

/-- config.sessionsMax = sessionsMax / workerCount (app.cpp line 618),
with C++ int division (truncation toward zero). -/
def perWorkerSessionsMax (maxOpenRequests clientMaxconn workerCount : Int) : Int :=
  Int.tdiv (effectiveSessionsMax maxOpenRequests clientMaxconn) workerCount

/-! ## Timer and registration budgets (EngineThread::run, app.cpp 311-325)

The capacity constants (TIMERS_PER_SESSION and friends) are defined outside
the provided sources; they are treated as parameters here. -/

structure CapacityConstants where
  TIMERS_PER_SESSION : Int
  ZROUTES_MAX : Int
  TIMERS_PER_ZROUTE : Int
  SOCKETNOTIFIERS_PER_ZROUTE : Int
  SOCKETNOTIFIERS_PER_SIMPLEHTTPREQUEST : Int
  PROMETHEUS_CONNECTIONS_MAX : Int
  deriving Repr, DecidableEq

/-- app.cpp line 312: enough timers for sessions and zroutes, plus an
extra 100 for misc. -/
def timersMax (k : CapacityConstants) (sessionsMax : Int) : Int :=
  sessionsMax * k.TIMERS_PER_SESSION + k.ZROUTES_MAX * k.TIMERS_PER_ZROUTE + 100

/-- app.cpp line 322: enough for zroutes and prometheus requests, plus an
extra 100 for misc. -/
def socketNotifiersMax (k : CapacityConstants) : Int :=
  k.SOCKETNOTIFIERS_PER_ZROUTE * k.ZROUTES_MAX
    + k.SOCKETNOTIFIERS_PER_SIMPLEHTTPREQUEST * k.PROMETHEUS_CONNECTIONS_MAX + 100

/-- app.cpp line 324: registrationsMax = timersMax + socketNotifiersMax. -/
def registrationsMax (k : CapacityConstants) (sessionsMax : Int) : Int :=
  timersMax k sessionsMax + socketNotifiersMax k

/-! ## Worker startup barrier (EngineWorker::start, EngineThread::start /
EngineThread::run, and the spawn loop in App::Private::runLoop)

Engine::start itself is outside the provided sources, so its success on
worker n is a parameter (a predicate on the worker index). The condition
variable handshake is modelled by the state the worker thread leaves behind
when it signals the supervisor: EngineThread::start returns (bool)worker
after exactly one wakeOne from either the started or the error signal. -/

inductive WorkerSignal
  | signalStarted
  | signalError
  deriving Repr, DecidableEq

/-- EngineWorker::start (app.cpp 205-216): on Engine::start failure the
engine is reset and the error signal fires; on success the started signal
fires. The Bool component records whether the engine is still held. -/
def engineWorkerStart (engineStartOk : Bool) : WorkerSignal × Bool :=
  if engineStartOk then (WorkerSignal.signalStarted, true)
  else (WorkerSignal.signalError, false)

structure ThreadStartState where
  /-- whether EngineThread::worker is non-null once the supervisor is woken:
  the started handler keeps the worker, the error handler resets it
  (app.cpp 337-343, 356-367). -/
  workerSet : Bool
  /-- how many wakeOne() signals the startup path delivered. -/
  wakes : Nat
  deriving Repr, DecidableEq

/-- The startup part of EngineThread::run (app.cpp 306-369): the deferred
EngineWorker::start runs on the worker thread; its started signal leaves
the worker set and wakes the supervisor, its error signal resets the worker
and wakes the supervisor. -/
def engineThreadRunStartup (engineStartOk : Bool) : ThreadStartState :=
  match engineWorkerStart engineStartOk with
  | (WorkerSignal.signalStarted, keep) => { workerSet := keep, wakes := 1 }
  | (WorkerSignal.signalError, keep) => { workerSet := keep, wakes := 1 }

/-- EngineThread::start (app.cpp 260-278): wait for the worker's wake, then
return (bool)worker. -/
def engineThreadStart (engineStartOk : Bool) : Bool :=
  (engineThreadRunStartup engineStartOk).workerSet

inductive SpawnResult
  /-- loop->exit(code) / QCoreApplication::exit(code) was called with this
  code, with the listed threads still alive (after deletion/clearing). -/
  | exitCode (code : Int) (threads : List EngineConfiguration)
  /-- all workers started; these are the spawned threads in order. -/
  | ok (threads : List EngineConfiguration)
  deriving Repr, DecidableEq

/-- The worker spawn loop of App::Private::runLoop (app.cpp 719-760): for
each n, build the per-worker config, start the thread; on failure delete
the new thread and all previously started threads, clear the list, and
exit with code 1. -/
def spawnWorkersLoop (config : EngineConfiguration) (workerCount : Nat) (engineStartOk : Nat → Bool)
    (n : Nat) (threads : List EngineConfiguration) : SpawnResult :=
  if n < workerCount then
    if engineThreadStart (engineStartOk n) then
      spawnWorkersLoop config workerCount engineStartOk (n + 1)
        (threads ++ [workerConfig config workerCount n])
    else
      SpawnResult.exitCode 1 []
  else
    SpawnResult.ok threads
termination_by workerCount - n

def spawnWorkers (config : EngineConfiguration) (workerCount : Nat)
    (engineStartOk : Nat → Bool) : SpawnResult :=
  spawnWorkersLoop config workerCount engineStartOk 0 []

/-! ## Domain map construction (App::Private::runLoop, app.cpp 676-684)

DomainMap internals are outside the provided sources. Modelled from the
spec: a domain map is constructed either from a routes file or from an
in-memory list of route lines added one at a time with addRouteLine. -/

structure DomainMap where
  /-- the routes file the map watches, when constructed from a file. -/
  sourceFile : Option String
  /-- the in-memory route lines added via addRouteLine, in order. -/
  routeLines : List String
  /-- how many times reload() replaced the route set. -/
  generation : Nat
  deriving Repr, DecidableEq

def DomainMap.new : DomainMap :=
  { sourceFile := none, routeLines := [], generation := 0 }

def DomainMap.fromFile (fileName : String) : DomainMap :=
  { sourceFile := some fileName, routeLines := [], generation := 0 }

def DomainMap.addRouteLine (m : DomainMap) (line : String) : DomainMap :=
  { m with routeLines := m.routeLines ++ [line] }

def DomainMap.reload (m : DomainMap) : DomainMap :=
  { m with generation := m.generation + 1 }

/-- app.cpp 676-684: if any --route lines were given, build the map from
them alone via addRouteLine; otherwise build it from the routes file. -/
def buildDomainMap (routeLines : List String) (routesFile : String) : DomainMap :=
  if !routeLines.isEmpty then
    routeLines.foldl DomainMap.addRouteLine DomainMap.new
  else
    DomainMap.fromFile routesFile

/-- parseCommandLine (app.cpp 178-182): repeated --route values are
accumulated in order. -/
def parseRouteArgs (values : List String) : List String :=
  values.foldl (fun routeLines r => routeLines ++ [r]) []

/-! ## Main-loop signal handlers (App::Private::runLoop, app.cpp 691-717) -/

structure MainLoopState where
  /-- per-worker configurations of the live engine threads. -/
  threads : List EngineConfiguration
  domainMap : DomainMap
  /-- number of log_rotate() calls performed. -/
  logRotations : Nat
  /-- the code passed to loop->exit / QCoreApplication::exit, if called. -/
  exited : Option Int
  deriving Repr, DecidableEq

/-- The hup handler (app.cpp 713-717): log_rotate() then
domainMap->reload(). -/
def hupHandler (s : MainLoopState) : MainLoopState :=
  { s with
    logRotations := s.logRotations + 1
    domainMap := s.domainMap.reload }

/-- The quit handler (app.cpp 691-711): stop and delete every engine
thread, clear the list, exit with code 0. -/
def quitHandler (s : MainLoopState) : MainLoopState :=
  { s with
    threads := []
    exited := some 0 }

/-! ## ControlRequest::ConnCheck (controlrequest.cpp 33-86, 140-143)

QVariant values are modelled by an inductive type covering the kinds the
code distinguishes; QByteArray content is modelled by its UTF-8 string, so
QString::fromUtf8 on it is the identity. A CidSet (QSet of QString) is a
Finset String. -/

inductive Variant
  | bytes (b : String)
  | str (s : String)
  | vlist (l : List Variant)
  | vhash (entries : List (String × Variant))
  | vint (n : Int)
  | vbool (b : Bool)

structure ZrpcCall where
  method : String
  args : List (String × Variant)

/-- The request the ConnCheck constructor starts (controlrequest.cpp
36-48): method conncheck, args mapping the key ids to the list of client
ids as byte arrays. -/
def connCheckCall (cids : List String) : ZrpcCall :=
  { method := "conncheck"
    args := [("ids", Variant.vlist (cids.map Variant.bytes))] }

inductive ZrpcReply
  | success (result : Variant)
  | failure (errorCondition : String)

inductive DeferredResult
  /-- setFinished(true, value) with the collected cid set. -/
  | finishedOk (cids : Finset String)
  /-- setFinished(false) carrying an error condition when one was given. -/
  | finishedFail (errorCondition : Option String)
  deriving DecidableEq

/-- The foreach loop of ConnCheck::req_finished (controlrequest.cpp
67-77): walk the result list, failing at the first element that is not a
byte array, otherwise inserting each id into the output set. -/
def connCheckCollect : List Variant → Finset String → DeferredResult
  | [], out => DeferredResult.finishedOk out
  | v :: rest, out =>
    match v with
    | Variant.bytes b => connCheckCollect rest (insert b out)
    | _ => DeferredResult.finishedFail none

/-- ConnCheck::req_finished (controlrequest.cpp 54-85). -/
def connCheckReqFinished (reply : ZrpcReply) : DeferredResult :=
  match reply with
  | ZrpcReply.success vresult =>
    match vresult with
    | Variant.vlist result => connCheckCollect result ∅
    | _ => DeferredResult.finishedFail none
  | ZrpcReply.failure cond => DeferredResult.finishedFail (some cond)

/-! ## Updater response size check (updater.cpp, Updater::Private) -/

/-- updater.cpp line 44. -/
def MAX_RESPONSE_SIZE : Int := 50000

inductive UpdaterReadOutcome
  /-- check failed, response too large: the request is cleaned up and the
  body never read. -/
  | responseTooLarge
  /-- response not finished yet; wait for more data. -/
  | awaitMoreData
  /-- check failed due to a non-200 response code; request cleaned up. -/
  | badResponseCode (code : Int)
  /-- the body is read and handed to the JSON processing below the size
  and status checks. -/
  | processedBody
  deriving Repr, DecidableEq

/-- The guard structure of Updater::Private::req_readyRead (updater.cpp
171-191), up to the point where the body is read and parsed. -/
def req_readyRead (bytesAvailable : Int) (finished : Bool) (responseCode : Int) : UpdaterReadOutcome :=
  if bytesAvailable > MAX_RESPONSE_SIZE then UpdaterReadOutcome.responseTooLarge
  else if !finished then UpdaterReadOutcome.awaitMoreData
  else if responseCode ≠ 200 then UpdaterReadOutcome.badResponseCode responseCode
  else UpdaterReadOutcome.processedBody

/-! ## Helper lemmas -/

theorem engineThreadStart_eq (b : Bool) : engineThreadStart b = b := by
  cases b <;> rfl

theorem engineThreadRunStartup_wakes (b : Bool) : (engineThreadRunStartup b).wakes = 1 := by
  cases b <;> rfl

theorem foldl_addRouteLine (m : DomainMap) (lines : List String) :
    lines.foldl DomainMap.addRouteLine m
      = { m with routeLines := m.routeLines ++ lines } := by
  induction lines generalizing m with
  | nil => simp
  | cons l ls ih =>
    rw [List.foldl_cons, ih]
    simp [DomainMap.addRouteLine]

theorem foldl_append_singleton (acc values : List String) :
    values.foldl (fun routeLines r => routeLines ++ [r]) acc = acc ++ values := by
  induction values generalizing acc with
  | nil => simp
  | cons v vs ih => simp [ih]

/-! ## Claim theorems -/

/-- C10: trimlist removes exactly the empty entries of a configured spec
list: the result is the filter keeping non-empty entries, so membership is
exactly non-empty membership in the original list and the relative order
is preserved (the result is a sublist of the input). -/
theorem C10_trimlist_removes_only_empties (l : List String) :
    trimlist l = l.filter (fun s => !s.isEmpty)
    ∧ (∀ s, s ∈ trimlist l ↔ s ∈ l ∧ !s.isEmpty)
    ∧ (trimlist l).Sublist l := by
  refine ⟨trimlist_eq_filter l, ?_, ?_⟩
  · intro s
    rw [trimlist_eq_filter]
    simp
  · rw [trimlist_eq_filter]
    exact List.filter_sublist l

/-- C6: the SIGHUP handler rotates the log file and reloads the route map
(bumping its generation), and performs no exit, quit, or thread teardown:
the exit state and the thread list are untouched. -/
theorem C6_hup_reloads_never_exits (s : MainLoopState) :
    (hupHandler s).logRotations = s.logRotations + 1
    ∧ (hupHandler s).domainMap = s.domainMap.reload
    ∧ (hupHandler s).domainMap.generation = s.domainMap.generation + 1
    ∧ (hupHandler s).exited = s.exited
    ∧ (hupHandler s).threads = s.threads :=
  ⟨rfl, rfl, rfl, rfl, rfl⟩

/-- C8: a response of exactly MAX_RESPONSE_SIZE available bytes passes the
size check and is processed once finished with code 200, while
MAX_RESPONSE_SIZE + 1 bytes always takes the too-large branch, abandoning
the request, whatever the finished flag and response code. -/
theorem C8_response_size_boundary (finished : Bool) (responseCode : Int) :
    req_readyRead MAX_RESPONSE_SIZE true 200 = UpdaterReadOutcome.processedBody
    ∧ req_readyRead (MAX_RESPONSE_SIZE + 1) finished responseCode
        = UpdaterReadOutcome.responseTooLarge := by
  constructor
  · rfl
  · simp [req_readyRead, MAX_RESPONSE_SIZE]

/-- C9: the effective total session limit is the minimum of
proxy/max_open_requests and runner/client_maxconn: negative (or defaulted)
max_open_requests yields client_maxconn, whose default is 50000; a set
value is clamped down to client_maxconn. -/
theorem C9_sessions_clamp (maxOpenRequests clientMaxconn : Int) :
    (maxOpenRequests < 0 → effectiveSessionsMax maxOpenRequests clientMaxconn = clientMaxconn)
    ∧ (0 ≤ maxOpenRequests →
        effectiveSessionsMax maxOpenRequests clientMaxconn = min maxOpenRequests clientMaxconn
        ∧ effectiveSessionsMax maxOpenRequests clientMaxconn ≤ clientMaxconn)
    ∧ effectiveSessionsMax maxOpenRequestsDefault clientMaxconnDefault = 50000 := by
  refine ⟨?_, ?_, by decide⟩
  · intro h
    rw [effectiveSessionsMax, if_neg (by omega)]
  · intro h
    rw [effectiveSessionsMax, if_pos h]
    exact ⟨rfl, min_le_right _ _⟩

/-- Witness for C9 at concrete inputs. -/
theorem C9_sessions_clamp_witness :
    ((-1 : Int) < 0 ∧ effectiveSessionsMax (-1) 50000 = 50000)
    ∧ ((0 : Int) ≤ 100 ∧ effectiveSessionsMax 100 50 = min 100 50) :=
  ⟨⟨by decide, (C9_sessions_clamp (-1) 50000).1 (by decide)⟩,
   ⟨by decide, ((C9_sessions_clamp 100 50).2.1 (by decide)).1⟩⟩

/-- A concrete engine configuration used for witnesses and
counterexamples. -/
def sampleConfig : EngineConfiguration :=
  { id := 0
    clientId := "proxy_1234"
    inspectSpec := "ipc:inspect"
    acceptSpec := "tcp://127.0.0.1:5555"
    retryInSpec := ""
    wsControlInitSpecs := ["ipc:a", "ipc:b"]
    wsControlStreamSpecs := ["tcp://host:1"]
    statsSpec := "ipc:stats"
    commandSpec := ""
    intServerInSpecs := []
    intServerInStreamSpecs := []
    intServerOutSpecs := []
    sessionsMax := 100 }

/-- Concrete capacity constants used for witnesses. -/
def sampleCapacity : CapacityConstants :=
  { TIMERS_PER_SESSION := 8
    ZROUTES_MAX := 100
    TIMERS_PER_ZROUTE := 4
    SOCKETNOTIFIERS_PER_ZROUTE := 2
    SOCKETNOTIFIERS_PER_SIMPLEHTTPREQUEST := 3
    PROMETHEUS_CONNECTIONS_MAX := 16 }

theorem spawnWorkersLoop_ok_of_all (config : EngineConfiguration) (workerCount : Nat)
    (engineStartOk : Nat → Bool) (n : Nat) (threads : List EngineConfiguration)
    (h : ∀ m, n ≤ m → m < workerCount → engineStartOk m = true) :
    spawnWorkersLoop config workerCount engineStartOk n threads
      = SpawnResult.ok
          (threads ++ (List.range' n (workerCount - n)).map (workerConfig config workerCount)) := by
  rw [spawnWorkersLoop]
  by_cases h1 : n < workerCount
  · rw [if_pos h1, h n le_rfl h1]
    show spawnWorkersLoop config workerCount engineStartOk (n + 1)
        (threads ++ [workerConfig config workerCount n]) = _
    rw [spawnWorkersLoop_ok_of_all config workerCount engineStartOk (n + 1)
      (threads ++ [workerConfig config workerCount n]) (fun m hm hmw => h m (by omega) hmw)]
    have hr : List.range' n (workerCount - n)
        = n :: List.range' (n + 1) (workerCount - (n + 1)) := by
      have h2 : workerCount - n = (workerCount - (n + 1)) + 1 := by omega
      rw [h2, List.range'_succ]
    rw [hr, List.map_cons, List.append_assoc, List.singleton_append]
  · rw [if_neg h1]
    have h0 : workerCount - n = 0 := by omega
    rw [h0]
    simp
termination_by workerCount - n

theorem spawnWorkersLoop_fail (config : EngineConfiguration) (workerCount : Nat)
    (engineStartOk : Nat → Bool) (n : Nat) (threads : List EngineConfiguration)
    (m : Nat) (hnm : n ≤ m) (hmw : m < workerCount) (hfail : engineStartOk m = false) :
    spawnWorkersLoop config workerCount engineStartOk n threads
      = SpawnResult.exitCode 1 [] := by
  rw [spawnWorkersLoop]
  have h1 : n < workerCount := by omega
  rw [if_pos h1]
  by_cases hok : engineStartOk n = true
  · rw [hok]
    show spawnWorkersLoop config workerCount engineStartOk (n + 1)
        (threads ++ [workerConfig config workerCount n]) = _
    have hne : n ≠ m := by
      intro he
      rw [he, hfail] at hok
      exact Bool.noConfusion hok
    exact spawnWorkersLoop_fail config workerCount engineStartOk (n + 1)
      (threads ++ [workerConfig config workerCount n]) m (by omega) hmw hfail
  · have hok' : engineStartOk n = false := by
      cases hq : engineStartOk n
      · rfl
      · exact absurd hq hok
    rw [hok']
    rfl
termination_by workerCount - n

/-- C1: EngineThread::start returns true exactly when the worker's engine
started (the started signal), it returns only after exactly one wake
(started or error), and the supervisor spawn loop either starts all
workers in index order or, on the first failure, deletes every
already-started worker thread and exits with code 1. -/
theorem C1_worker_startup_barrier (config : EngineConfiguration) (workerCount : Nat)
    (engineStartOk : Nat → Bool) :
    (∀ b, engineThreadStart b = b ∧ (engineThreadRunStartup b).wakes = 1)
    ∧ ((∀ n, n < workerCount → engineStartOk n = true) →
        spawnWorkers config workerCount engineStartOk
          = SpawnResult.ok ((List.range workerCount).map (workerConfig config workerCount)))
    ∧ (∀ m, m < workerCount → engineStartOk m = false →
        spawnWorkers config workerCount engineStartOk = SpawnResult.exitCode 1 []) := by
  refine ⟨fun b => ⟨engineThreadStart_eq b, engineThreadRunStartup_wakes b⟩, ?_, ?_⟩
  · intro h
    rw [spawnWorkers, spawnWorkersLoop_ok_of_all config workerCount engineStartOk 0 []
      (fun m _ hm => h m hm)]
    rw [List.nil_append, Nat.sub_zero, List.range_eq_range']
  · intro m hmw hfail
    exact spawnWorkersLoop_fail config workerCount engineStartOk 0 [] m (Nat.zero_le m) hmw hfail

/-- Witness for C1: with two always-succeeding workers the supervisor
starts both; with one failing worker it exits with code 1 and no threads
remain. -/
theorem C1_worker_startup_barrier_witness :
    ((∀ n, n < 2 → (fun _ : Nat => true) n = true)
      ∧ spawnWorkers sampleConfig 2 (fun _ => true)
          = SpawnResult.ok ((List.range 2).map (workerConfig sampleConfig 2)))
    ∧ ((0 < 1 ∧ (fun _ : Nat => false) 0 = false)
      ∧ spawnWorkers sampleConfig 1 (fun _ => false) = SpawnResult.exitCode 1 []) :=
  ⟨⟨fun _ _ => rfl,
    (C1_worker_startup_barrier sampleConfig 2 (fun _ => true)).2.1 (fun _ _ => rfl)⟩,
   ⟨⟨by decide, rfl⟩,
    (C1_worker_startup_barrier sampleConfig 1 (fun _ => false)).2.2 0 (by decide) rfl⟩⟩

/-- C3: each worker's configured sessions_max is the effective total
divided by the worker count with C++ integer division, so the per-worker
limits summed over all workers never exceed the total. -/
theorem C3_per_worker_sessions (maxOpenRequests clientMaxconn workerCount : Int)
    (hc : 0 ≤ clientMaxconn) (hw : 0 < workerCount) :
    perWorkerSessionsMax maxOpenRequests clientMaxconn workerCount
      = Int.tdiv (effectiveSessionsMax maxOpenRequests clientMaxconn) workerCount
    ∧ workerCount * perWorkerSessionsMax maxOpenRequests clientMaxconn workerCount
        ≤ effectiveSessionsMax maxOpenRequests clientMaxconn := by
  have htot : 0 ≤ effectiveSessionsMax maxOpenRequests clientMaxconn := by
    rw [effectiveSessionsMax]
    split
    · exact le_min (by assumption) hc
    · exact hc
  refine ⟨rfl, ?_⟩
  rw [perWorkerSessionsMax, Int.tdiv_eq_ediv htot (le_of_lt hw)]
  have h1 := Int.ediv_add_emod (effectiveSessionsMax maxOpenRequests clientMaxconn) workerCount
  have h2 := Int.emod_nonneg (effectiveSessionsMax maxOpenRequests clientMaxconn)
    (by omega : workerCount ≠ 0)
  omega

/-- Witness for C3 at a concrete configuration: total 100 split over 3
workers. -/
theorem C3_per_worker_sessions_witness :
    ((0 : Int) ≤ 50000 ∧ (0 : Int) < 3)
    ∧ 3 * perWorkerSessionsMax 100 50000 3 ≤ effectiveSessionsMax 100 50000 :=
  ⟨⟨by decide, by decide⟩, (C3_per_worker_sessions 100 50000 3 (by decide) (by decide)).2⟩

/-- C4: the worker timer budget is
sessionsMax * TIMERS_PER_SESSION + ZROUTES_MAX * TIMERS_PER_ZROUTE + 100,
and the new event loop's registration budget is that timer budget plus the
socket-notifier budget, hence covers the per-session timers, the fixed
overhead of 100, and the socket notifiers. -/
theorem C4_registration_budget (k : CapacityConstants) (sessionsMax : Int)
    (hs : 0 ≤ sessionsMax)
    (h1 : 0 ≤ k.TIMERS_PER_SESSION) (h2 : 0 ≤ k.ZROUTES_MAX) (h3 : 0 ≤ k.TIMERS_PER_ZROUTE)
    (h4 : 0 ≤ k.SOCKETNOTIFIERS_PER_ZROUTE) (h5 : 0 ≤ k.SOCKETNOTIFIERS_PER_SIMPLEHTTPREQUEST)
    (h6 : 0 ≤ k.PROMETHEUS_CONNECTIONS_MAX) :
    timersMax k sessionsMax
      = sessionsMax * k.TIMERS_PER_SESSION + k.ZROUTES_MAX * k.TIMERS_PER_ZROUTE + 100
    ∧ registrationsMax k sessionsMax = timersMax k sessionsMax + socketNotifiersMax k
    ∧ sessionsMax * k.TIMERS_PER_SESSION ≤ registrationsMax k sessionsMax
    ∧ 100 ≤ registrationsMax k sessionsMax
    ∧ socketNotifiersMax k ≤ registrationsMax k sessionsMax
    ∧ timersMax k sessionsMax ≤ registrationsMax k sessionsMax := by
  have p1 : 0 ≤ sessionsMax * k.TIMERS_PER_SESSION := mul_nonneg hs h1
  have p2 : 0 ≤ k.ZROUTES_MAX * k.TIMERS_PER_ZROUTE := mul_nonneg h2 h3
  have p3 : 0 ≤ k.SOCKETNOTIFIERS_PER_ZROUTE * k.ZROUTES_MAX := mul_nonneg h4 h2
  have p4 : 0 ≤ k.SOCKETNOTIFIERS_PER_SIMPLEHTTPREQUEST * k.PROMETHEUS_CONNECTIONS_MAX :=
    mul_nonneg h5 h6
  refine ⟨rfl, rfl, ?_, ?_, ?_, ?_⟩ <;>
    simp only [registrationsMax, timersMax, socketNotifiersMax] <;>
    linarith

/-- Witness for C4 at the sample capacity constants and 100 sessions. -/
theorem C4_registration_budget_witness :
    registrationsMax sampleCapacity 100
      = timersMax sampleCapacity 100 + socketNotifiersMax sampleCapacity
    ∧ 100 ≤ registrationsMax sampleCapacity 100 :=
  ⟨(C4_registration_budget sampleCapacity 100 (by decide) (by decide) (by decide) (by decide)
      (by decide) (by decide) (by decide)).2.1,
   (C4_registration_budget sampleCapacity 100 (by decide) (by decide) (by decide) (by decide)
      (by decide) (by decide) (by decide)).2.2.2.1⟩

/-- C5: when at least one --route line is given the domain map is built
solely from the in-memory lines via addRouteLine and carries no routes
file; otherwise it is built from the routes file. parseCommandLine
accumulates repeated --route values in order. -/
theorem C5_route_lines_override (routeLines : List String) (routesFile : String) :
    (routeLines ≠ [] →
      buildDomainMap routeLines routesFile
          = routeLines.foldl DomainMap.addRouteLine DomainMap.new
      ∧ (buildDomainMap routeLines routesFile).sourceFile = none
      ∧ (buildDomainMap routeLines routesFile).routeLines = routeLines)
    ∧ (routeLines = [] →
      buildDomainMap routeLines routesFile = DomainMap.fromFile routesFile
      ∧ (buildDomainMap routeLines routesFile).sourceFile = some routesFile)
    ∧ parseRouteArgs routeLines = routeLines := by
  refine ⟨?_, ?_, foldl_append_singleton [] routeLines⟩
  · intro h
    have hne : (!routeLines.isEmpty) = true := by
      cases routeLines
      · exact absurd rfl h
      · rfl
    have hb : buildDomainMap routeLines routesFile
        = routeLines.foldl DomainMap.addRouteLine DomainMap.new := by
      rw [buildDomainMap, if_pos hne]
    refine ⟨hb, ?_, ?_⟩
    · rw [hb, foldl_addRouteLine]
      rfl
    · rw [hb, foldl_addRouteLine]
      rfl
  · intro h
    subst h
    exact ⟨rfl, rfl⟩

/-- Witness for C5: one route line shadows the file; no lines means the
file is used. -/
theorem C5_route_lines_override_witness :
    (["example.com test"] ≠ ([] : List String)
      ∧ (buildDomainMap ["example.com test"] "routes").sourceFile = none)
    ∧ buildDomainMap [] "routes" = DomainMap.fromFile "routes" :=
  ⟨⟨List.cons_ne_nil _ _,
    ((C5_route_lines_override ["example.com test"] "routes").1 (List.cons_ne_nil _ _)).2.1⟩,
   ((C5_route_lines_override [] "routes").2.1 rfl).1⟩

theorem connCheckCollect_bytes (bs : List String) (out : Finset String) :
    connCheckCollect (bs.map Variant.bytes) out
      = DeferredResult.finishedOk (out ∪ bs.toFinset) := by
  induction bs generalizing out with
  | nil => simp [connCheckCollect]
  | cons b bs ih =>
    rw [List.map_cons]
    show connCheckCollect (bs.map Variant.bytes) (insert b out) = _
    rw [ih]
    congr 1
    ext x
    simp only [Finset.mem_union, Finset.mem_insert, List.toFinset_cons]
    tauto

theorem connCheckCollect_nonbytes (pre : List String) (v : Variant) (rest : List Variant)
    (out : Finset String) (hv : ∀ b, v ≠ Variant.bytes b) :
    connCheckCollect (pre.map Variant.bytes ++ v :: rest) out
      = DeferredResult.finishedFail none := by
  induction pre generalizing out with
  | nil =>
    cases v with
    | bytes b => exact absurd rfl (hv b)
    | str s => rfl
    | vlist l => rfl
    | vhash entries => rfl
    | vint n => rfl
    | vbool b => rfl
  | cons p ps ih =>
    rw [List.map_cons, List.cons_append]
    show connCheckCollect (ps.map Variant.bytes ++ v :: rest) (insert p out) = _
    exact ih (insert p out)

/-- C7: the conncheck client sends method conncheck with the id set under
key ids; a successful reply whose result is a list of byte arrays finishes
successfully with exactly that set of ids; a successful reply whose result
is not a list, or whose list contains a non-byte-array element, finishes as
failed with no condition (malformed reply); an unsuccessful reply finishes
as failed with the error condition. -/
theorem C7_conncheck_rpc (cids bs : List String) (v : Variant) (cond : String) :
    ((connCheckCall cids).method = "conncheck"
      ∧ (connCheckCall cids).args = [("ids", Variant.vlist (cids.map Variant.bytes))])
    ∧ connCheckReqFinished (ZrpcReply.success (Variant.vlist (bs.map Variant.bytes)))
        = DeferredResult.finishedOk bs.toFinset
    ∧ ((∀ l, v ≠ Variant.vlist l) →
        connCheckReqFinished (ZrpcReply.success v) = DeferredResult.finishedFail none)
    ∧ (∀ (pre : List String) (rest : List Variant), (∀ b, v ≠ Variant.bytes b) →
        connCheckReqFinished
            (ZrpcReply.success (Variant.vlist (pre.map Variant.bytes ++ v :: rest)))
          = DeferredResult.finishedFail none)
    ∧ connCheckReqFinished (ZrpcReply.failure cond) = DeferredResult.finishedFail (some cond) := by
  refine ⟨⟨rfl, rfl⟩, ?_, ?_, ?_, rfl⟩
  · show connCheckCollect (bs.map Variant.bytes) ∅ = _
    rw [connCheckCollect_bytes, Finset.empty_union]
  · intro hv
    cases v with
    | bytes b => rfl
    | str s => rfl
    | vlist l => exact absurd rfl (hv l)
    | vhash entries => rfl
    | vint n => rfl
    | vbool b => rfl
  · intro pre rest hv
    show connCheckCollect (pre.map Variant.bytes ++ v :: rest) ∅ = _
    exact connCheckCollect_nonbytes pre v rest ∅ hv

/-- Witness for C7: a non-list result and a list containing an integer
both finish as failed. -/
theorem C7_conncheck_rpc_witness :
    ((∀ l, Variant.vint 3 ≠ Variant.vlist l)
      ∧ connCheckReqFinished (ZrpcReply.success (Variant.vint 3))
          = DeferredResult.finishedFail none)
    ∧ ((∀ b, Variant.vint 3 ≠ Variant.bytes b)
      ∧ connCheckReqFinished
            (ZrpcReply.success (Variant.vlist (["a"].map Variant.bytes ++ Variant.vint 3 :: [])))
          = DeferredResult.finishedFail none) :=
  ⟨⟨(fun _ h => nomatch h),
    (C7_conncheck_rpc [] [] (Variant.vint 3) "x").2.2.1 (fun _ h => nomatch h)⟩,
   ⟨(fun _ h => nomatch h),
    (C7_conncheck_rpc [] [] (Variant.vint 3) "x").2.2.2.1 ["a"] [] (fun _ h => nomatch h)⟩⟩

/-- C2 counterexample: with two workers, worker 0's wsControlInitSpecs
holds the two IPC specs unchanged — suffixSpecs only suffixes one-element
IPC lists, so the claim that every IPC endpoint spec is suffixed with the
worker index in multi-worker mode is false. -/
theorem C2_counterexample :
    2 > 1
    ∧ qstartsWith "ipc:a" "ipc:" = true
    ∧ (workerConfig sampleConfig 2 0).wsControlInitSpecs = ["ipc:a", "ipc:b"]
    ∧ (workerConfig sampleConfig 2 0).wsControlInitSpecs
        ≠ sampleConfig.wsControlInitSpecs.map (fun s => suffixSpec s 0) := by
  refine ⟨by decide, by decide, by decide, by decide⟩

/-- C2 amended: in multi-worker mode each scalar endpoint spec is suffixed
with "-n" exactly when it starts with "ipc:"; a list endpoint spec is
suffixed only when it is a one-element list whose sole entry is an IPC
spec, and is otherwise left wholly unchanged even when it contains IPC
entries; in single-worker mode only the id changes. -/
theorem C2_amended_suffixing (config : EngineConfiguration) (workerCount n : Nat) :
    ((∀ s i, qstartsWith s "ipc:" = true → suffixSpec s i = s ++ "-" ++ toString i)
      ∧ (∀ s i, qstartsWith s "ipc:" = false → suffixSpec s i = s)
      ∧ (∀ s i, qstartsWith s "ipc:" = true → suffixSpecs [s] i = [s ++ "-" ++ toString i])
      ∧ (∀ l i, ¬(l.length = 1 ∧ qstartsWith l.headI "ipc:" = true) → suffixSpecs l i = l))
    ∧ (workerCount > 1 →
        (workerConfig config workerCount n).id = n
        ∧ (workerConfig config workerCount n).clientId = config.clientId ++ "-" ++ toString n
        ∧ (workerConfig config workerCount n).inspectSpec = suffixSpec config.inspectSpec n
        ∧ (workerConfig config workerCount n).acceptSpec = suffixSpec config.acceptSpec n
        ∧ (workerConfig config workerCount n).retryInSpec = suffixSpec config.retryInSpec n
        ∧ (workerConfig config workerCount n).wsControlInitSpecs
            = suffixSpecs config.wsControlInitSpecs n
        ∧ (workerConfig config workerCount n).wsControlStreamSpecs
            = suffixSpecs config.wsControlStreamSpecs n
        ∧ (workerConfig config workerCount n).statsSpec = suffixSpec config.statsSpec n
        ∧ (workerConfig config workerCount n).commandSpec = suffixSpec config.commandSpec n
        ∧ (workerConfig config workerCount n).intServerInSpecs
            = suffixSpecs config.intServerInSpecs n
        ∧ (workerConfig config workerCount n).intServerInStreamSpecs
            = suffixSpecs config.intServerInStreamSpecs n
        ∧ (workerConfig config workerCount n).intServerOutSpecs
            = suffixSpecs config.intServerOutSpecs n)
    ∧ (¬(workerCount > 1) → workerConfig config workerCount n = { config with id := n }) := by
  refine ⟨⟨?_, ?_, ?_, ?_⟩, ?_, ?_⟩
  · intro s i h
    rw [suffixSpec, if_pos h]
  · intro s i h
    rw [suffixSpec, if_neg]
    rw [h]
    exact Bool.false_ne_true
  · intro s i h
    rw [suffixSpecs, if_pos ⟨rfl, h⟩]
    rfl
  · intro l i h
    rw [suffixSpecs, if_neg h]
  · intro h
    simp only [workerConfig]
    rw [if_pos h]
    exact ⟨rfl, rfl, rfl, rfl, rfl, rfl, rfl, rfl, rfl, rfl, rfl, rfl⟩
  · intro h
    simp only [workerConfig]
    rw [if_neg h]

/-- Witness for C2 amended, at concrete specs and worker counts. -/
theorem C2_amended_suffixing_witness :
    (qstartsWith "ipc:stats" "ipc:" = true
      ∧ suffixSpec "ipc:stats" 3 = "ipc:stats" ++ "-" ++ toString 3)
    ∧ (2 > 1 ∧ (workerConfig sampleConfig 2 1).statsSpec = suffixSpec sampleConfig.statsSpec 1)
    ∧ (¬(1 > 1) ∧ workerConfig sampleConfig 1 5 = { sampleConfig with id := 5 }) :=
  ⟨⟨by decide, (C2_amended_suffixing sampleConfig 2 1).1.1 "ipc:stats" 3 (by decide)⟩,
   ⟨by decide, ((C2_amended_suffixing sampleConfig 2 1).2.1 (by decide)).2.2.2.2.2.2.2.1⟩,
   ⟨by decide, (C2_amended_suffixing sampleConfig 1 5).2.2 (by decide)⟩⟩

end Pushpin
